import Mathlib

/-!
Shallow embedding of `launch_amazon_mysql_server.py` (mysql_utils).

The module has two functions with decision logic:
 * `get_subnet_from_sg` (the spec's SubnetResolver), and
 * `launch_amazon_mysql_server` (the spec's LaunchConfigBuilder plus handoff).

The static configuration tables live in `lib/environment_specific`, which is
not part of the source tree; following the spec (§6 "Static configuration
data"), they are modelled as read-only inputs: an `Env` record of association
lists.  Python dictionaries become association lists (with the stable
iteration order of the list), a failed dictionary subscript becomes a
`keyError` result, and an explicit `raise Exception(...)` becomes a structured
error constructor carrying exactly the data interpolated into the message.
External collaborators (the ambient security role, the hostname registry, the
EC2 `run_instances` call) are parameters, and the calls the function makes to
the outside world are recorded in an event trace.
-/

deriving instance DecidableEq for Except

namespace MysqlLaunch

/-- Python dictionary read `d[k]` over an association list: the value at the
first binding of `k` (tables are assumed without duplicate keys). -/
def dictGet {α : Type} (d : List (String × α)) (k : String) : Option α :=
  (d.find? (fun p => p.1 == k)).map Prod.snd

/-- One row of `environment_specific.SSH_SECURITY_MAP`: the dictionary
`{'ssh': ..., 'iam': ...}` for a subnet. -/
structure SshSecurity where
  ssh : String
  iam : String
deriving DecidableEq

/-- One row of `environment_specific.SUPPORTED_HARDWARE`: the entry for an
instance type, whose `'ami'` field maps an OS flavor to an image id. -/
structure HardwareProfile where
  ami : List (String × String)
deriving DecidableEq

/-- The static configuration tables of `lib.environment_specific` consulted by
`launch_amazon_mysql_server.py`, modelled as read-only inputs (spec §6).
`HIERA_FORMAT` is a format string in the missing module; modelled from the
spec: the deployment-role key is "built from {final access level, normalized
major version, minor-version channel}", so it is kept as an uninterpreted
composition function of exactly those three strings. -/
structure Env where
  PEM_KEY : String
  INSTANCE_PROFILE_NAME : String
  SUPPORTED_HARDWARE : List (String × HardwareProfile)
  VPC_SECURITY_GROUPS : List (String × String)
  SSH_SECURITY_MAP : List (String × SshSecurity)
  SSH_IAM_MAPPING : List (String × String)
  SUPPORTED_HIERA_CONFIGS : List String
  HIERA_FORMAT : String → String → String → String
  ROLE_TO_LAUNCH_INSTANCE : List String
  VPC_SUBNET_SG_MAP : List (String × List String)
  VPC_AZ_SUBNET_MAP : List (String × List (String × String))
  PINFO_TEAM : String
  PINFO_ENV : String
  RAID_MOUNT : String

/-- The failure outcomes of the Python code.  `keyError k` is an uncaught
`KeyError` from a dictionary subscript with key `k` (the spec's
ConfigurationError / second ResolutionError); the remaining constructors are
the explicit `raise Exception(...)` sites, carrying the data interpolated into
the message. -/
inductive LaunchError where
  | roleError : LaunchError
  | keyError : String → LaunchError
  | subnetError : String → LaunchError
  | sshPolicyError : String → String → LaunchError
  | hieraError : String → List String → LaunchError
  | hostnameUsedError : String → LaunchError
deriving DecidableEq

/-- The `config` dictionary assembled by `launch_amazon_mysql_server`, with
each field at its final value (the spec's LaunchDescriptor). -/
structure LaunchConfig where
  key_name : String
  placement : String
  instance_profile_name : String
  image_id : String
  instance_type : String
  subnet_id : String
  security_group_ids : List String
  user_data : String
deriving DecidableEq

/-- The externally observable calls made during one invocation. -/
inductive Event where
  | imageLookup : String → String → Event
  | hostnameCheck : String → Event
  | provisionCall : LaunchConfig → Event
deriving DecidableEq

/-- `mysql_major_version.replace('.', '')`: remove every dot. -/
def replaceDots (s : String) : String :=
  ⟨s.data.filter (fun c => c ≠ '.')⟩

/-- The `'#cloud-config\n...'` user-data template of lines 127-139. -/
def user_data_str (team penv role host raid_mount : String) : String :=
  "#cloud-config\npinfo_team: " ++ team ++
  "\npinfo_env: " ++ penv ++
  "\npinfo_role: " ++ role ++
  "\nhostname: " ++ host ++
  "\nraid: true\nraid_fs: xfs\nraid_mount: " ++ raid_mount

/-- The scan of lines 166-169: iterate over `VPC_SUBNET_SG_MAP` in table
order, overwriting `vpc_subnet` at every entry whose group list contains
`sg` (there is no `break`). -/
def sg_scan (env : Env) (sg : String) : Option String :=
  env.VPC_SUBNET_SG_MAP.foldl
    (fun acc p => if sg ∈ p.2 then some p.1 else acc) none

/-- `get_subnet_from_sg` (lines 156-181).  `if not vpc_subnet` is Python
truthiness: both `None` and the empty string take the raise. -/
def get_subnet_from_sg (env : Env) (sg az : String) :
    Except LaunchError (String × String) :=
  match sg_scan env sg with
  | none => .error (.subnetError sg)
  | some vpc_subnet =>
    if vpc_subnet = "" then .error (.subnetError sg)
    else
      match dictGet env.VPC_AZ_SUBNET_MAP vpc_subnet with
      | none => .error (.keyError vpc_subnet)
      | some az_map =>
        match dictGet az_map az with
        | none => .error (.keyError az)
        | some vpc_az_subnet => .ok (vpc_subnet, vpc_az_subnet)

/-- The ssh-group gate of lines 103-114, returning the final
`(ssh_security, instance_profile_name)` pair.  `if ssh_group:` is Python
truthiness, so `None` and `""` both skip the gate; inside it, the override is
adopted exactly when `ssh_group >= ssh_security` (lexicographic string
comparison) and `ssh_group` is a key of `SSH_IAM_MAPPING`, and otherwise the
single `raise` of lines 112-114 fires with both strings in the message. -/
def reconcile_ssh (env : Env) (ssh_group : Option String) (sec : SshSecurity) :
    Except LaunchError (String × String) :=
  match ssh_group with
  | none => .ok (sec.ssh, sec.iam)
  | some g =>
    if g = "" then .ok (sec.ssh, sec.iam)
    else
      match dictGet env.SSH_IAM_MAPPING g with
      | some iam =>
        if g.data < sec.ssh.data then .error (.sshPolicyError g sec.ssh)
        else .ok (g, iam)
      | none => .error (.sshPolicyError g sec.ssh)

/-- Lines 94-125 and 127-139 of `launch_amazon_mysql_server`: assemble the
`config` dictionary (with its final field values), failing at the first
failed lookup or violated gate, in source order: hardware/image lookup,
subnet resolution, ssh-security lookup, security-group id lookup, ssh-group
gate, hiera-config gate. -/
def build_config (env : Env)
    (hostname instance_type vpc_security_group availability_zone : String)
    (ssh_group : Option String)
    (mysql_major_version mysql_minor_version os_flavor : String) :
    Except LaunchError LaunchConfig :=
  match dictGet env.SUPPORTED_HARDWARE instance_type with
  | none => .error (.keyError instance_type)
  | some hw =>
    match dictGet hw.ami os_flavor with
    | none => .error (.keyError os_flavor)
    | some image_id =>
      match get_subnet_from_sg env vpc_security_group availability_zone with
      | .error e => .error e
      | .ok (subnet_name, subnet_id) =>
        match dictGet env.SSH_SECURITY_MAP subnet_name with
        | none => .error (.keyError subnet_name)
        | some sec =>
          match dictGet env.VPC_SECURITY_GROUPS vpc_security_group with
          | none => .error (.keyError vpc_security_group)
          | some sg_id =>
            match reconcile_ssh env ssh_group sec with
            | .error e => .error e
            | .ok (ssh_security, profile) =>
              let hiera_config :=
                env.HIERA_FORMAT ssh_security
                  (replaceDots mysql_major_version) mysql_minor_version
              if hiera_config ∈ env.SUPPORTED_HIERA_CONFIGS then
                .ok (LaunchConfig.mk env.PEM_KEY availability_zone profile
                  image_id instance_type subnet_id [sg_id]
                  (user_data_str env.PINFO_TEAM env.PINFO_ENV hiera_config
                    hostname env.RAID_MOUNT))
              else .error (.hieraError hiera_config env.SUPPORTED_HIERA_CONFIGS)

/-- `launch_amazon_mysql_server` (lines 63-153).  Returns the Python return
value — `None` on the dry-run path, the instance id otherwise — or the raised
error, together with the trace of externally observable steps: the machine
image lookup (line 97), the hostname-registry call (line 143, skipped when
`skip_name_check`), and the `run_instances` provisioning call (line 151). -/
def launch_amazon_mysql_server (env : Env) (security_role : String)
    (is_hostname_new : String → Bool) (run_instances : LaunchConfig → String)
    (hostname instance_type vpc_security_group availability_zone : String)
    (ssh_group : Option String)
    (mysql_major_version mysql_minor_version os_flavor : String)
    (dry_run skip_name_check : Bool) :
    Except LaunchError (Option String) × List Event :=
  if security_role ∈ env.ROLE_TO_LAUNCH_INSTANCE then
    match build_config env hostname instance_type vpc_security_group
        availability_zone ssh_group mysql_major_version mysql_minor_version
        os_flavor with
    | .error e => (.error e, [.imageLookup instance_type os_flavor])
    | .ok config =>
      if skip_name_check then
        if dry_run then (.ok none, [.imageLookup instance_type os_flavor])
        else (.ok (some (run_instances config)),
              [.imageLookup instance_type os_flavor, .provisionCall config])
      else
        if is_hostname_new hostname then
          if dry_run then
            (.ok none,
             [.imageLookup instance_type os_flavor, .hostnameCheck hostname])
          else
            (.ok (some (run_instances config)),
             [.imageLookup instance_type os_flavor, .hostnameCheck hostname,
              .provisionCall config])
        else
          (.error (.hostnameUsedError hostname),
           [.imageLookup instance_type os_flavor, .hostnameCheck hostname])
  else (.error .roleError, [])

/-! ### Helper lemmas -/

/-- A fold of the `get_subnet_from_sg` scan over entries none of which contain
`sg` leaves the accumulator unchanged. -/
theorem sg_scan_fold_no_match (g : String) (l : List (String × List String))
    (acc : Option String) (h : ∀ p ∈ l, g ∉ p.2) :
    l.foldl (fun acc p => if g ∈ p.2 then some p.1 else acc) acc = acc := by
  induction l generalizing acc with
  | nil => rfl
  | cons p l ih =>
    simp only [List.foldl_cons]
    rw [if_neg (h p (List.mem_cons_self p l))]
    exact ih acc (fun q hq => h q (List.mem_cons_of_mem p hq))

/-- The string order of `Mathlib` (lexicographic on code points, as in
Python) restated on the underlying character lists, which is the form used in
`reconcile_ssh`. -/
theorem string_lt_iff_data_lt (a b : String) : a < b ↔ a.data < b.data :=
  String.lt_iff_toList_lt

/-- `a ≤ b` for strings is the absence of the strict data-list comparison. -/
theorem string_le_iff_not_data_lt (a b : String) : a ≤ b ↔ ¬ b.data < a.data :=
  ⟨fun h hc => absurd (string_lt_iff_data_lt b a |>.mpr hc) (not_lt.mpr h),
   fun h => not_lt.mp (fun hc => h ((string_lt_iff_data_lt b a).mp hc))⟩

/-! ### Environments for witnesses and counterexamples -/

/-- A small well-formed configuration: one network `prod-a` containing
`sg-app`, with subnet `subnet-123` in `us-east-1a`, default ssh security
`"b"` with profile `iam-default`, and two whitelisted ssh groups. -/
def demoEnv : Env where
  PEM_KEY := "pem"
  INSTANCE_PROFILE_NAME := "default-profile"
  SUPPORTED_HARDWARE := [("m3.large", ⟨[("trusty", "ami-1")]⟩)]
  VPC_SECURITY_GROUPS := [("sg-app", "sg-0001")]
  SSH_SECURITY_MAP := [("prod-a", ⟨"b", "iam-default"⟩)]
  SSH_IAM_MAPPING := [("c", "iam-elevated"), ("b", "iam-normal")]
  SUPPORTED_HIERA_CONFIGS := ["c_56_stable", "b_56_stable"]
  HIERA_FORMAT := fun sec majv minv => sec ++ "_" ++ majv ++ "_" ++ minv
  ROLE_TO_LAUNCH_INSTANCE := ["admin"]
  VPC_SUBNET_SG_MAP := [("prod-a", ["sg-app"])]
  VPC_AZ_SUBNET_MAP := [("prod-a", [("us-east-1a", "subnet-123")])]
  PINFO_TEAM := "db"
  PINFO_ENV := "prod"
  RAID_MOUNT := "/raid0"

/-- A misconfigured topology in which `sg-dup` belongs to two networks,
`net1` (first in table order) and `net2` (second). -/
def dupEnv : Env where
  PEM_KEY := "pem"
  INSTANCE_PROFILE_NAME := "default-profile"
  SUPPORTED_HARDWARE := [("m3.large", ⟨[("trusty", "ami-1")]⟩)]
  VPC_SECURITY_GROUPS := [("sg-dup", "sg-0002")]
  SSH_SECURITY_MAP := [("net1", ⟨"b", "iam-1"⟩), ("net2", ⟨"b", "iam-2"⟩)]
  SSH_IAM_MAPPING := []
  SUPPORTED_HIERA_CONFIGS := ["b_56_stable"]
  HIERA_FORMAT := fun sec majv minv => sec ++ "_" ++ majv ++ "_" ++ minv
  ROLE_TO_LAUNCH_INSTANCE := ["admin"]
  VPC_SUBNET_SG_MAP := [("net1", ["sg-dup"]), ("net2", ["sg-dup"])]
  VPC_AZ_SUBNET_MAP := [("net1", [("z1", "s1")]), ("net2", [("z1", "s2")])]
  PINFO_TEAM := "db"
  PINFO_ENV := "prod"
  RAID_MOUNT := "/raid0"

/-! ### Claims -/

/-- Claim C2 (confirmed): a security group contained in no network makes
`get_subnet_from_sg` fail with the explicit "could not determine subnet"
raise (the spec's ResolutionError), never returning a default; and when the
resolved network has no configured subnet for the requested availability
zone — either because the network is missing from `VPC_AZ_SUBNET_MAP` or
because the zone is missing from its row — the dictionary subscript of line
173 fails (a `KeyError`, the spec's second ResolutionError), again with no
default returned. -/
theorem claim_C2_resolution_failures (env : Env) (g z : String) :
    ((∀ p ∈ env.VPC_SUBNET_SG_MAP, g ∉ p.2) →
      get_subnet_from_sg env g z = .error (.subnetError g))
    ∧ (∀ n, sg_scan env g = some n → n ≠ "" →
        dictGet env.VPC_AZ_SUBNET_MAP n = none →
        get_subnet_from_sg env g z = .error (.keyError n))
    ∧ (∀ n azm, sg_scan env g = some n → n ≠ "" →
        dictGet env.VPC_AZ_SUBNET_MAP n = some azm → dictGet azm z = none →
        get_subnet_from_sg env g z = .error (.keyError z)) := by
  refine ⟨fun h => ?_, fun n hn hne hmap => ?_, fun n azm hn hne hmap haz => ?_⟩
  · unfold get_subnet_from_sg
    rw [show sg_scan env g = none from sg_scan_fold_no_match g _ none h]
  · unfold get_subnet_from_sg
    rw [hn]
    simp [hne, hmap]
  · unfold get_subnet_from_sg
    rw [hn]
    simp [hne, hmap, haz]

/-- Witness for claim C2: in `demoEnv`, the unknown group `sg-x` resolves to
the "could not determine subnet" error. -/
theorem claim_C2_witness :
    get_subnet_from_sg demoEnv "sg-x" "us-east-1a" = .error (.subnetError "sg-x") :=
  (claim_C2_resolution_failures demoEnv "sg-x" "us-east-1a").1 (by decide)

/-- Counterexample for claim C3: in `dupEnv` the group `sg-dup` belongs to
both `net1` (first in table order) and `net2` (second); the scan of lines
166-169 has no `break`, so the resolver returns `net2`'s subnet — the last
match — and not `net1`'s, refuting deterministic first-match. -/
theorem claim_C3_counterexample :
    get_subnet_from_sg dupEnv "sg-dup" "z1" = .ok ("net2", "s2")
    ∧ get_subnet_from_sg dupEnv "sg-dup" "z1" ≠ .ok ("net1", "s1") := by
  decide

/-- Claim C3 (corrected): when a security group appears in several networks,
the scan is still deterministic, but it selects the LAST matching entry in
the stable iteration order of `VPC_SUBNET_SG_MAP`: whenever the table splits
as `l₁ ++ p :: l₂` with `g ∈ p` and no entry of `l₂` containing `g`, the
resolved network is `p.1`, and the returned subnet is the one configured for
`p.1` in the requested zone. -/
theorem claim_C3_last_match (env : Env) (g az : String)
    (l₁ l₂ : List (String × List String)) (p : String × List String)
    (htab : env.VPC_SUBNET_SG_MAP = l₁ ++ p :: l₂)
    (hmem : g ∈ p.2) (hlast : ∀ q ∈ l₂, g ∉ q.2) :
    sg_scan env g = some p.1
    ∧ (∀ azm s, p.1 ≠ "" → dictGet env.VPC_AZ_SUBNET_MAP p.1 = some azm →
        dictGet azm az = some s → get_subnet_from_sg env g az = .ok (p.1, s)) := by
  have hscan : sg_scan env g = some p.1 := by
    unfold sg_scan
    rw [htab, List.foldl_append, List.foldl_cons, if_pos hmem]
    exact sg_scan_fold_no_match g l₂ _ hlast
  refine ⟨hscan, fun azm s hne hmap haz => ?_⟩
  unfold get_subnet_from_sg
  rw [hscan]
  simp [hne, hmap, haz]

/-- Witness for claim C3: applying the last-match theorem to `dupEnv` at the
split `[net1-entry] ++ net2-entry :: []` yields `net2`. -/
theorem claim_C3_witness : sg_scan dupEnv "sg-dup" = some "net2" :=
  (claim_C3_last_match dupEnv "sg-dup" "z1" [("net1", ["sg-dup"])] []
    ("net2", ["sg-dup"]) (by decide) (by decide) (by decide)).1

/-- Counterexample for claim C1: a dry-run invocation of `demoEnv` that
passes every gate returns `.ok none` — Python's bare `return` of line 148,
i.e. `None` — so the caller receives no value at all, not the assembled
launch descriptor; the trace confirms no provisioning call was made. -/
theorem claim_C1_counterexample :
    launch_amazon_mysql_server demoEnv "admin" (fun _ => true) (fun _ => "i-123")
      "h1" "m3.large" "sg-app" "us-east-1a" none "5.6" "stable" "trusty" true false
    = (.ok none, [.imageLookup "m3.large" "trusty", .hostnameCheck "h1"]) := by
  decide

/-- Claim C1 (corrected): with the dry-run flag set, any run that reaches a
normal (non-error) outcome returns Python `None` — not the assembled
descriptor, which is only logged — and the provisioning collaborator is
never invoked on any dry-run path, successful or not. -/
theorem claim_C1_dry_run (env : Env) (security_role : String)
    (is_hostname_new : String → Bool) (run_instances : LaunchConfig → String)
    (hostname instance_type vpc_security_group availability_zone : String)
    (ssh_group : Option String)
    (mysql_major_version mysql_minor_version os_flavor : String)
    (skip_name_check : Bool)
    (out : Except LaunchError (Option String) × List Event)
    (hout : launch_amazon_mysql_server env security_role is_hostname_new
      run_instances hostname instance_type vpc_security_group
      availability_zone ssh_group mysql_major_version mysql_minor_version
      os_flavor true skip_name_check = out) :
    (∀ r, out.1 = .ok r → r = none)
    ∧ ∀ c, Event.provisionCall c ∉ out.2 := by
  subst hout
  unfold launch_amazon_mysql_server
  constructor
  · intro r hr
    split at hr
    · split at hr
      · simp at hr
      · split at hr
        · rw [if_pos rfl] at hr
          simp at hr
          subst hr
          rfl
        · split at hr
          · rw [if_pos rfl] at hr
            simp at hr
            subst hr
            rfl
          · simp at hr
    · simp at hr
  · intro c hc
    split at hc
    · split at hc
      · simp at hc
      · split at hc
        · rw [if_pos rfl] at hc
          simp at hc
        · split at hc
          · rw [if_pos rfl] at hc
            simp at hc
          · simp at hc
    · simp at hc

/-- Witness for claim C1: the dry-run theorem applied to the concrete
successful run of `claim_C1_counterexample`'s input. -/
theorem claim_C1_witness :
    ((.ok (none : Option String) : Except LaunchError (Option String)) = .ok none → (none : Option String) = none)
    ∧ ∀ c, Event.provisionCall c ∉
        [Event.imageLookup "m3.large" "trusty", Event.hostnameCheck "h1"] := by
  have h := claim_C1_dry_run demoEnv "admin" (fun _ => true) (fun _ => "i-123")
    "h1" "m3.large" "sg-app" "us-east-1a" none "5.6" "stable" "trusty" false
    (.ok none, [.imageLookup "m3.large" "trusty", .hostnameCheck "h1"]) (by decide)
  exact ⟨fun _ => h.1 none rfl, h.2⟩

/-- Counterexample for claim C4: with `demoEnv`, a registry in which every
hostname is already taken, and the uniqueness check not skipped, the run does
raise the "hostname already used" error, but the event trace shows the
machine-image lookup of line 97 happened first — the claim asserted the
conflict is raised before any image lookup. -/
theorem claim_C4_counterexample :
    launch_amazon_mysql_server demoEnv "admin" (fun _ => false) (fun _ => "i-123")
      "h1" "m3.large" "sg-app" "us-east-1a" none "5.6" "stable" "trusty" false false
    = (.error (.hostnameUsedError "h1"),
       [.imageLookup "m3.large" "trusty", .hostnameCheck "h1"]) := by
  decide

/-- Claim C4 (corrected): when the hostname is already registered and the
uniqueness check is not skipped (and the run reaches the check, i.e. the
role gate passes and the config assembles), the "hostname already used"
error is raised — but it comes AFTER the machine-image lookup, which is the
first step of config assembly; it does still precede any provisioning call,
so no provisioning is wasted. -/
theorem claim_C4_conflict_after_image_lookup (env : Env)
    (security_role : String) (is_hostname_new : String → Bool)
    (run_instances : LaunchConfig → String)
    (hostname instance_type vpc_security_group availability_zone : String)
    (ssh_group : Option String)
    (mysql_major_version mysql_minor_version os_flavor : String)
    (dry_run : Bool) (config : LaunchConfig)
    (hrole : security_role ∈ env.ROLE_TO_LAUNCH_INSTANCE)
    (hcfg : build_config env hostname instance_type vpc_security_group
      availability_zone ssh_group mysql_major_version mysql_minor_version
      os_flavor = .ok config)
    (hused : is_hostname_new hostname = false) :
    launch_amazon_mysql_server env security_role is_hostname_new run_instances
      hostname instance_type vpc_security_group availability_zone ssh_group
      mysql_major_version mysql_minor_version os_flavor dry_run false
    = (.error (.hostnameUsedError hostname),
       [.imageLookup instance_type os_flavor, .hostnameCheck hostname]) := by
  unfold launch_amazon_mysql_server
  rw [if_pos hrole, hcfg]
  simp [hused]

/-- Witness for claim C4: the corrected ordering theorem applied to the
concrete input of `claim_C4_counterexample`. -/
theorem claim_C4_witness :
    launch_amazon_mysql_server demoEnv "admin" (fun _ => false) (fun _ => "i-123")
      "h2" "m3.large" "sg-app" "us-east-1a" none "5.6" "stable" "trusty" true false
    = (.error (.hostnameUsedError "h2"),
       [.imageLookup "m3.large" "trusty", .hostnameCheck "h2"]) :=
  claim_C4_conflict_after_image_lookup demoEnv "admin" (fun _ => false)
    (fun _ => "i-123") "h2" "m3.large" "sg-app" "us-east-1a" none "5.6"
    "stable" "trusty" true
    (LaunchConfig.mk "pem" "us-east-1a" "iam-default" "ami-1" "m3.large"
      "subnet-123" ["sg-0001"] (user_data_str "db" "prod" "b_56_stable" "h2" "/raid0"))
    (by decide) (by decide) rfl

/-- Claim C5 (confirmed): a supplied ssh-group override that compares
strictly lower than the resolved subnet's default `ssh` security (with the
run reaching the gate: lookups of lines 94-105 succeed, and the override
nonempty so that Python's `if ssh_group:` enters the gate) makes the build
fail with the "weaker access policy" raise of lines 112-114, whose payload
cites both the override and the default level — so no descriptor, in
particular none using the weaker override's profile, is ever returned. -/
theorem claim_C5_weaker_override_rejected (env : Env)
    (hostname instance_type vpc_security_group availability_zone : String)
    (g mysql_major_version mysql_minor_version os_flavor : String)
    (hw : HardwareProfile) (image_id subnet_name subnet_id : String)
    (sec : SshSecurity) (sg_id : String)
    (h1 : dictGet env.SUPPORTED_HARDWARE instance_type = some hw)
    (h2 : dictGet hw.ami os_flavor = some image_id)
    (h3 : get_subnet_from_sg env vpc_security_group availability_zone =
      .ok (subnet_name, subnet_id))
    (h4 : dictGet env.SSH_SECURITY_MAP subnet_name = some sec)
    (h5 : dictGet env.VPC_SECURITY_GROUPS vpc_security_group = some sg_id)
    (hne : g ≠ "") (hlt : g < sec.ssh) :
    build_config env hostname instance_type vpc_security_group
      availability_zone (some g) mysql_major_version mysql_minor_version
      os_flavor = .error (.sshPolicyError g sec.ssh) := by
  have hlt' : g.data < sec.ssh.data := (string_lt_iff_data_lt g sec.ssh).mp hlt
  unfold build_config reconcile_ssh
  simp only [h1, h2, h3, h4, h5]
  cases hdg : dictGet env.SSH_IAM_MAPPING g <;> simp [hne, hdg, hlt']

/-- Witness for claim C5: in `demoEnv` the override `"a"` is strictly below
the subnet default `"b"`, and the build fails citing both. -/
theorem claim_C5_witness :
    build_config demoEnv "h1" "m3.large" "sg-app" "us-east-1a" (some "a")
      "5.6" "stable" "trusty" = .error (.sshPolicyError "a" "b") :=
  claim_C5_weaker_override_rejected demoEnv "h1" "m3.large" "sg-app"
    "us-east-1a" "a" "5.6" "stable" "trusty" ⟨[("trusty", "ami-1")]⟩ "ami-1"
    "prod-a" "subnet-123" ⟨"b", "iam-default"⟩ "sg-0001" (by decide)
    (by decide) (by decide) (by decide) (by decide) (by decide)
    ((string_lt_iff_data_lt "a" "b").mpr (by decide))

/-- Claim C6 (confirmed): a supplied nonempty ssh-group override that is at
least the subnet default and is a key of `SSH_IAM_MAPPING` replaces the
subnet default: whatever descriptor the build returns carries the override's
IAM profile (`SSH_IAM_MAPPING[ssh_group]`, line 110) as its
`instance_profile_name`, not the subnet default's `iam` entry. -/
theorem claim_C6_override_profile_adopted (env : Env)
    (hostname instance_type vpc_security_group availability_zone : String)
    (g mysql_major_version mysql_minor_version os_flavor : String)
    (hw : HardwareProfile) (image_id subnet_name subnet_id : String)
    (sec : SshSecurity) (sg_id iam : String)
    (h1 : dictGet env.SUPPORTED_HARDWARE instance_type = some hw)
    (h2 : dictGet hw.ami os_flavor = some image_id)
    (h3 : get_subnet_from_sg env vpc_security_group availability_zone =
      .ok (subnet_name, subnet_id))
    (h4 : dictGet env.SSH_SECURITY_MAP subnet_name = some sec)
    (h5 : dictGet env.VPC_SECURITY_GROUPS vpc_security_group = some sg_id)
    (hne : g ≠ "") (hge : sec.ssh ≤ g)
    (h6 : dictGet env.SSH_IAM_MAPPING g = some iam) :
    ∀ config, build_config env hostname instance_type vpc_security_group
      availability_zone (some g) mysql_major_version mysql_minor_version
      os_flavor = .ok config → config.instance_profile_name = iam := by
  intro config hcfg
  have hnlt : ¬ g.data < sec.ssh.data :=
    (string_le_iff_not_data_lt sec.ssh g).mp hge
  unfold build_config reconcile_ssh at hcfg
  simp [h1, h2, h3, h4, h5, h6, hne, hnlt] at hcfg
  split at hcfg
  · simp only [Except.ok.injEq] at hcfg
    rw [← hcfg]
  · simp at hcfg

/-- Witness for claim C6: in `demoEnv` the override `"c"` (above default
`"b"`, whitelisted with profile `iam-elevated`) yields a descriptor whose
profile is `iam-elevated`, not the subnet default `iam-default`. -/
theorem claim_C6_witness :
    (LaunchConfig.mk "pem" "us-east-1a" "iam-elevated" "ami-1" "m3.large"
      "subnet-123" ["sg-0001"]
      (user_data_str "db" "prod" "c_56_stable" "h1" "/raid0")).instance_profile_name
    = "iam-elevated" :=
  claim_C6_override_profile_adopted demoEnv "h1" "m3.large" "sg-app"
    "us-east-1a" "c" "5.6" "stable" "trusty" ⟨[("trusty", "ami-1")]⟩ "ami-1"
    "prod-a" "subnet-123" ⟨"b", "iam-default"⟩ "sg-0001" "iam-elevated"
    (by decide) (by decide) (by decide) (by decide) (by decide) (by decide)
    ((string_le_iff_not_data_lt "b" "c").mpr (by decide)) (by decide)
    (LaunchConfig.mk "pem" "us-east-1a" "iam-elevated" "ami-1" "m3.large"
      "subnet-123" ["sg-0001"]
      (user_data_str "db" "prod" "c_56_stable" "h1" "/raid0")) (by decide)

/-- Like `demoEnv` but with subnet default ssh security `"c"`, and with the
weaker group `"b"` present in the whitelist. -/
def policyEnvA : Env where
  PEM_KEY := "pem"
  INSTANCE_PROFILE_NAME := "default-profile"
  SUPPORTED_HARDWARE := [("m3.large", ⟨[("trusty", "ami-1")]⟩)]
  VPC_SECURITY_GROUPS := [("sg-app", "sg-0001")]
  SSH_SECURITY_MAP := [("prod-a", ⟨"c", "iam-default"⟩)]
  SSH_IAM_MAPPING := [("b", "iam-b")]
  SUPPORTED_HIERA_CONFIGS := ["c_56_stable"]
  HIERA_FORMAT := fun sec majv minv => sec ++ "_" ++ majv ++ "_" ++ minv
  ROLE_TO_LAUNCH_INSTANCE := ["admin"]
  VPC_SUBNET_SG_MAP := [("prod-a", ["sg-app"])]
  VPC_AZ_SUBNET_MAP := [("prod-a", [("us-east-1a", "subnet-123")])]
  PINFO_TEAM := "db"
  PINFO_ENV := "prod"
  RAID_MOUNT := "/raid0"

/-- Like `policyEnvA` but with an empty whitelist, so every supplied group is
unrecognized. -/
def policyEnvB : Env where
  PEM_KEY := "pem"
  INSTANCE_PROFILE_NAME := "default-profile"
  SUPPORTED_HARDWARE := [("m3.large", ⟨[("trusty", "ami-1")]⟩)]
  VPC_SECURITY_GROUPS := [("sg-app", "sg-0001")]
  SSH_SECURITY_MAP := [("prod-a", ⟨"c", "iam-default"⟩)]
  SSH_IAM_MAPPING := []
  SUPPORTED_HIERA_CONFIGS := ["c_56_stable"]
  HIERA_FORMAT := fun sec majv minv => sec ++ "_" ++ majv ++ "_" ++ minv
  ROLE_TO_LAUNCH_INSTANCE := ["admin"]
  VPC_SUBNET_SG_MAP := [("prod-a", ["sg-app"])]
  VPC_AZ_SUBNET_MAP := [("prod-a", [("us-east-1a", "subnet-123")])]
  PINFO_TEAM := "db"
  PINFO_ENV := "prod"
  RAID_MOUNT := "/raid0"

/-- Counterexample for claim C7: an unrecognized override is rejected with
exactly the same error value as the genuine cannot-weaken rejection, not a
distinct "unrecognized access group" failure.  In `policyEnvA` the override
`"b"` is recognized but weaker than the default `"c"` — the cannot-weaken
case — and in `policyEnvB` the same `"b"` is unrecognized: both runs produce
the identical `sshPolicyError "b" "c"` (the single raise of lines 112-114,
whose message speaks of a "weaker access policy").  An unrecognized override
`"d"` above the default fails with the same weaker-policy-citing error. -/
theorem claim_C7_counterexample :
    build_config policyEnvA "h1" "m3.large" "sg-app" "us-east-1a" (some "b")
      "5.6" "stable" "trusty" = .error (.sshPolicyError "b" "c")
    ∧ build_config policyEnvB "h1" "m3.large" "sg-app" "us-east-1a" (some "b")
      "5.6" "stable" "trusty" = .error (.sshPolicyError "b" "c")
    ∧ build_config policyEnvB "h1" "m3.large" "sg-app" "us-east-1a" (some "d")
      "5.6" "stable" "trusty" = .error (.sshPolicyError "d" "c") := by
  decide

/-- Claim C7 (corrected): every supplied nonempty override that is not a key
of `SSH_IAM_MAPPING` is rejected regardless of its level (no level
hypothesis appears below) — but with the same single "weaker access policy"
error used for the cannot-weaken case, citing the override and the subnet
default, rather than a distinct "unrecognized access group" failure. -/
theorem claim_C7_unrecognized_rejected (env : Env)
    (hostname instance_type vpc_security_group availability_zone : String)
    (g mysql_major_version mysql_minor_version os_flavor : String)
    (hw : HardwareProfile) (image_id subnet_name subnet_id : String)
    (sec : SshSecurity) (sg_id : String)
    (h1 : dictGet env.SUPPORTED_HARDWARE instance_type = some hw)
    (h2 : dictGet hw.ami os_flavor = some image_id)
    (h3 : get_subnet_from_sg env vpc_security_group availability_zone =
      .ok (subnet_name, subnet_id))
    (h4 : dictGet env.SSH_SECURITY_MAP subnet_name = some sec)
    (h5 : dictGet env.VPC_SECURITY_GROUPS vpc_security_group = some sg_id)
    (hne : g ≠ "") (h6 : dictGet env.SSH_IAM_MAPPING g = none) :
    build_config env hostname instance_type vpc_security_group
      availability_zone (some g) mysql_major_version mysql_minor_version
      os_flavor = .error (.sshPolicyError g sec.ssh) := by
  unfold build_config reconcile_ssh
  simp [h1, h2, h3, h4, h5, h6, hne]

/-- Witness for claim C7: in `policyEnvB` the unrecognized group `"d"`,
despite being above the default `"c"`, is rejected with the weaker-policy
error citing both strings. -/
theorem claim_C7_witness :
    build_config policyEnvB "h1" "m3.large" "sg-app" "us-east-1a" (some "d")
      "5.6" "stable" "trusty" = .error (.sshPolicyError "d" "c") :=
  claim_C7_unrecognized_rejected policyEnvB "h1" "m3.large" "sg-app"
    "us-east-1a" "d" "5.6" "stable" "trusty" ⟨[("trusty", "ami-1")]⟩ "ami-1"
    "prod-a" "subnet-123" ⟨"c", "iam-default"⟩ "sg-0001" (by decide)
    (by decide) (by decide) (by decide) (by decide) (by decide) (by decide)

/-- Claim C8 (confirmed): the deployment-role (hiera) key checked at line 121
is exactly `HIERA_FORMAT` applied to the final ssh-security level, the major
version with its dots removed (`replace('.', '')`, line 118), and the minor
version; when that key is not in `SUPPORTED_HIERA_CONFIGS` the build fails —
before any descriptor is produced — with the raise of lines 122-125, whose
payload carries the key and the whole valid set; and any descriptor that is
produced embeds that same key in its user-data role line. -/
theorem claim_C8_hiera_key (env : Env)
    (hostname instance_type vpc_security_group availability_zone : String)
    (ssh_group : Option String)
    (mysql_major_version mysql_minor_version os_flavor : String)
    (hw : HardwareProfile) (image_id subnet_name subnet_id : String)
    (sec : SshSecurity) (sg_id ssh_security profile : String)
    (h1 : dictGet env.SUPPORTED_HARDWARE instance_type = some hw)
    (h2 : dictGet hw.ami os_flavor = some image_id)
    (h3 : get_subnet_from_sg env vpc_security_group availability_zone =
      .ok (subnet_name, subnet_id))
    (h4 : dictGet env.SSH_SECURITY_MAP subnet_name = some sec)
    (h5 : dictGet env.VPC_SECURITY_GROUPS vpc_security_group = some sg_id)
    (h6 : reconcile_ssh env ssh_group sec = .ok (ssh_security, profile)) :
    (env.HIERA_FORMAT ssh_security (replaceDots mysql_major_version)
        mysql_minor_version ∉ env.SUPPORTED_HIERA_CONFIGS →
      build_config env hostname instance_type vpc_security_group
        availability_zone ssh_group mysql_major_version mysql_minor_version
        os_flavor = .error (.hieraError
          (env.HIERA_FORMAT ssh_security (replaceDots mysql_major_version)
            mysql_minor_version) env.SUPPORTED_HIERA_CONFIGS))
    ∧ ∀ config, build_config env hostname instance_type vpc_security_group
        availability_zone ssh_group mysql_major_version mysql_minor_version
        os_flavor = .ok config →
      config.user_data = user_data_str env.PINFO_TEAM env.PINFO_ENV
        (env.HIERA_FORMAT ssh_security (replaceDots mysql_major_version)
          mysql_minor_version) hostname env.RAID_MOUNT := by
  constructor
  · intro hnot
    unfold build_config
    simp [h1, h2, h3, h4, h5, h6, hnot]
  · intro config hcfg
    unfold build_config at hcfg
    simp [h1, h2, h3, h4, h5, h6] at hcfg
    split at hcfg
    · simp only [Except.ok.injEq] at hcfg
      rw [← hcfg]
    · simp at hcfg

/-- Like `demoEnv` but whose deployment-role whitelist contains only an
unrelated key, so the composed key is unsupported. -/
def hieraEnv : Env where
  PEM_KEY := "pem"
  INSTANCE_PROFILE_NAME := "default-profile"
  SUPPORTED_HARDWARE := [("m3.large", ⟨[("trusty", "ami-1")]⟩)]
  VPC_SECURITY_GROUPS := [("sg-app", "sg-0001")]
  SSH_SECURITY_MAP := [("prod-a", ⟨"b", "iam-default"⟩)]
  SSH_IAM_MAPPING := [("c", "iam-elevated"), ("b", "iam-normal")]
  SUPPORTED_HIERA_CONFIGS := ["other"]
  HIERA_FORMAT := fun sec majv minv => sec ++ "_" ++ majv ++ "_" ++ minv
  ROLE_TO_LAUNCH_INSTANCE := ["admin"]
  VPC_SUBNET_SG_MAP := [("prod-a", ["sg-app"])]
  VPC_AZ_SUBNET_MAP := [("prod-a", [("us-east-1a", "subnet-123")])]
  PINFO_TEAM := "db"
  PINFO_ENV := "prod"
  RAID_MOUNT := "/raid0"

/-- Witness for claim C8: the dots of `"5.6"` are removed, the composed key
`"b_56_stable"` is not in `hieraEnv`'s whitelist `["other"]`, and the build
fails with the error listing that valid set. -/
theorem claim_C8_witness :
    replaceDots "5.6" = "56"
    ∧ build_config hieraEnv "h1" "m3.large" "sg-app" "us-east-1a" none "5.6"
        "stable" "trusty" = .error (.hieraError "b_56_stable" ["other"]) := by
  refine ⟨by decide, ?_⟩
  exact (claim_C8_hiera_key hieraEnv "h1" "m3.large" "sg-app" "us-east-1a"
    none "5.6" "stable" "trusty" ⟨[("trusty", "ami-1")]⟩ "ami-1" "prod-a"
    "subnet-123" ⟨"b", "iam-default"⟩ "sg-0001" "b" "iam-default" (by decide)
    (by decide) (by decide) (by decide) (by decide) (by decide)).1 (by decide)

/-- Claim C9 (confirmed): when the hardware-profile table has no machine
image for the requested (hardware type, OS flavor) — the instance type is
missing, or its `ami` row lacks the flavor — the build fails at once with
the `KeyError` of the line-97 subscript carrying the missing key (the spec's
ConfigurationError), never returns a success (no silent default image), and
that error is a different kind from either policy error (the access-policy
raise and the hiera raise). -/
theorem claim_C9_missing_image (env : Env) (security_role : String)
    (is_hostname_new : String → Bool) (run_instances : LaunchConfig → String)
    (hostname instance_type vpc_security_group availability_zone : String)
    (ssh_group : Option String)
    (mysql_major_version mysql_minor_version os_flavor : String)
    (dry_run skip_name_check : Bool)
    (hrole : security_role ∈ env.ROLE_TO_LAUNCH_INSTANCE)
    (himg : (dictGet env.SUPPORTED_HARDWARE instance_type).bind
      (fun hw => dictGet hw.ami os_flavor) = none) :
    ((launch_amazon_mysql_server env security_role is_hostname_new
        run_instances hostname instance_type vpc_security_group
        availability_zone ssh_group mysql_major_version mysql_minor_version
        os_flavor dry_run skip_name_check).1
      = .error (.keyError instance_type)
     ∨ (launch_amazon_mysql_server env security_role is_hostname_new
        run_instances hostname instance_type vpc_security_group
        availability_zone ssh_group mysql_major_version mysql_minor_version
        os_flavor dry_run skip_name_check).1
      = .error (.keyError os_flavor))
    ∧ (∀ r, (launch_amazon_mysql_server env security_role is_hostname_new
        run_instances hostname instance_type vpc_security_group
        availability_zone ssh_group mysql_major_version mysql_minor_version
        os_flavor dry_run skip_name_check).1 ≠ .ok r)
    ∧ (∀ k a b, (LaunchError.keyError k) ≠ .sshPolicyError a b)
    ∧ (∀ k a bs, (LaunchError.keyError k) ≠ .hieraError a bs) := by
  cases hhw : dictGet env.SUPPORTED_HARDWARE instance_type with
  | none =>
    have hres : (launch_amazon_mysql_server env security_role is_hostname_new
        run_instances hostname instance_type vpc_security_group
        availability_zone ssh_group mysql_major_version mysql_minor_version
        os_flavor dry_run skip_name_check).1
        = .error (.keyError instance_type) := by
      unfold launch_amazon_mysql_server build_config
      simp [hrole, hhw]
    refine ⟨Or.inl hres, fun r hr => ?_, fun k a b => by simp, fun k a bs => by simp⟩
    rw [hres] at hr
    cases hr
  | some hw =>
    have hami : dictGet hw.ami os_flavor = none := by simpa [hhw] using himg
    have hres : (launch_amazon_mysql_server env security_role is_hostname_new
        run_instances hostname instance_type vpc_security_group
        availability_zone ssh_group mysql_major_version mysql_minor_version
        os_flavor dry_run skip_name_check).1
        = .error (.keyError os_flavor) := by
      unfold launch_amazon_mysql_server build_config
      simp [hrole, hhw, hami]
    refine ⟨Or.inr hres, fun r hr => ?_, fun k a b => by simp, fun k a bs => by simp⟩
    rw [hres] at hr
    cases hr

/-- Witness for claim C9: in `demoEnv` the OS flavor `"precise"` has no
image entry for `m3.large`, and the run fails with the `KeyError` on that
flavor. -/
theorem claim_C9_witness :
    (launch_amazon_mysql_server demoEnv "admin" (fun _ => true)
        (fun _ => "i-1") "h1" "m3.large" "sg-app" "us-east-1a" none "5.6"
        "stable" "precise" false false).1 = .error (.keyError "m3.large")
    ∨ (launch_amazon_mysql_server demoEnv "admin" (fun _ => true)
        (fun _ => "i-1") "h1" "m3.large" "sg-app" "us-east-1a" none "5.6"
        "stable" "precise" false false).1 = .error (.keyError "precise") :=
  (claim_C9_missing_image demoEnv "admin" (fun _ => true) (fun _ => "i-1")
    "h1" "m3.large" "sg-app" "us-east-1a" none "5.6" "stable" "precise"
    false false (by decide) (by decide)).1

/-- Claim C10 (confirmed): the order used by the ssh-group gate is the
lexicographic (code-point) ordering of the raw group-name strings — in this
development `String`'s linear order, which the bridge lemmas
`string_lt_iff_data_lt` and `string_le_iff_not_data_lt` identify with the
character-list comparison written in `reconcile_ssh`.  A supplied nonempty
override is accepted exactly when its name is ≥ the subnet default and is a
key of `SSH_IAM_MAPPING`; in particular an override string-equal to the
default is accepted and its whitelist profile adopted, and a whitelisted but
smaller override, or any non-key, is rejected. -/
theorem claim_C10_lexicographic_order (env : Env) (sec : SshSecurity)
    (g : String) (hne : g ≠ "") :
    (∀ iam, dictGet env.SSH_IAM_MAPPING g = some iam →
      ((sec.ssh ≤ g → reconcile_ssh env (some g) sec = .ok (g, iam))
       ∧ (g < sec.ssh →
          reconcile_ssh env (some g) sec = .error (.sshPolicyError g sec.ssh))
       ∧ (g = sec.ssh → reconcile_ssh env (some g) sec = .ok (g, iam))))
    ∧ (dictGet env.SSH_IAM_MAPPING g = none →
       reconcile_ssh env (some g) sec = .error (.sshPolicyError g sec.ssh)) := by
  constructor
  · intro iam hiam
    have hacc : sec.ssh ≤ g →
        reconcile_ssh env (some g) sec = .ok (g, iam) := by
      intro hge
      have hnlt : ¬ g.data < sec.ssh.data :=
        (string_le_iff_not_data_lt sec.ssh g).mp hge
      unfold reconcile_ssh
      simp [hne, hiam, hnlt]
    refine ⟨hacc, fun hlt => ?_, fun heq => hacc (le_of_eq heq.symm)⟩
    have hlt' := (string_lt_iff_data_lt g sec.ssh).mp hlt
    unfold reconcile_ssh
    simp [hne, hiam, hlt']
  · intro hnone
    unfold reconcile_ssh
    simp [hne, hnone]

/-- Witness for claim C10: in `demoEnv` an override string-equal to the
subnet default `"b"` is accepted, and the adopted profile is the whitelist's
`iam-normal`, not the subnet default's `iam-default`. -/
theorem claim_C10_witness :
    reconcile_ssh demoEnv (some "b") ⟨"b", "iam-default"⟩ =
      .ok ("b", "iam-normal") :=
  (((claim_C10_lexicographic_order demoEnv ⟨"b", "iam-default"⟩ "b"
    (by decide)).1 "iam-normal" (by decide)).2.2 rfl)

end MysqlLaunch
